import Mathlib

/-!
Verification of the notebook `examples/simulations/sim_3_topo_residual.ipynb`.

The notebook simulates a 3D topographic-residual phase time series:
it reads perpendicular baselines from a reference time-series file,
normalizes them (`pbase -= pbase[0]`), amplifies them (`pbase *= 10.`),
reads three 2D geometry rasters, fills a `(num_date, length, width)`
float32 array slice by slice with
`dem_err * pbase[i] / (rg_dist * np.sin(inc_angle * np.pi / 180.))`,
writes the result to `sim_topoResid.h5` (guarded by an
`os.path.isfile` check), and finally shells out to `view.py`.

Numeric values are modelled by exact rationals (`ℚ`); floating-point
rounding is idealized away, and `np.sin` and `np.pi` are carried as
explicit parameters (`sinFn`, `piVal`) of the environment, since the
claims under study are arithmetic identities that hold for any values
of these constants.  A separate small model with IEEE special values
(`FVal`) is used for the one claim that is explicitly about
division-by-zero behaviour of floats.
-/

/-- Element-type tag of a numpy array, as far as the notebook uses it. -/
inductive DType where
  | float32
  | float64
deriving DecidableEq

/-- A 2D raster as returned by `readfile.read(...)[0]`: a shape together
with a total index function (indices outside the shape are irrelevant). -/
structure Arr2 where
  d0 : Nat
  d1 : Nat
  data : Nat → Nat → ℚ

/-- A 3D array such as `ts_data`: shape `(d0, d1, d2)`, a dtype tag and a
total index function. -/
structure Arr3 where
  d0 : Nat
  d1 : Nat
  d2 : Nat
  dtype : DType
  data : Nat → Nat → Nat → ℚ

/-- `np.zeros((d0, d1, d2), t)`. -/
def npZeros3 (d0 d1 d2 : Nat) (t : DType) : Arr3 :=
  { d0 := d0, d1 := d1, d2 := d2, dtype := t, data := fun _ _ _ => 0 }

/-- The slice assignment `a[i, :, :] = s`. -/
def setSlice (a : Arr3) (i : Nat) (s : Nat → Nat → ℚ) : Arr3 :=
  { a with data := fun j y x => if j = i then s y x else a.data j y x }

/-- The inputs the computation depends on, as they stand after cell-0:
the raw baselines and dimensions from the reference time-series object,
the contents of the geometry and DEM-error rasters, and the two library
constants `np.sin` and `np.pi`. -/
structure Env where
  pbaseRaw : Nat → ℚ
  numDate : Nat
  len : Nat
  wid : Nat
  incAngle : Arr2
  rgDist : Arr2
  demErr : Arr2
  sinFn : ℚ → ℚ
  piVal : ℚ

/-- `pbase` after cell-0's `pbase -= pbase[0]`. -/
def pbaseNorm (env : Env) : Nat → ℚ :=
  fun i => env.pbaseRaw i - env.pbaseRaw 0

/-- `pbase` as used inside the epoch loop, after cell-1's `pbase *= 10.`. -/
def pbaseLoop (env : Env) : Nat → ℚ :=
  fun i => pbaseNorm env i * 10

/-- The right-hand side of the loop body:
`dem_err * pbase[i] / (rg_dist * np.sin(inc_angle * np.pi / 180.))`. -/
def epochSlice (inc rg de : Arr2) (sinFn : ℚ → ℚ) (piVal : ℚ)
    (pb : Nat → ℚ) (i : Nat) : Nat → Nat → ℚ :=
  fun y x => de.data y x * pb i / (rg.data y x * sinFn (inc.data y x * piVal / 180))

/-- The loop
`ts_data = np.zeros((num_date, length, width), np.float32);`
`for i in range(num_date): ts_data[i,:,:] = ...`. -/
def computeLoop (inc rg de : Arr2) (pb : Nat → ℚ)
    (numDate len wid : Nat) (sinFn : ℚ → ℚ) (piVal : ℚ) : Arr3 :=
  (List.range numDate).foldl
    (fun a i => setSlice a i (epochSlice inc rg de sinFn piVal pb i))
    (npZeros3 numDate len wid DType.float32)

/-- The `ts_data` array computed by cell-1 from the environment. -/
def tsData (env : Env) : Arr3 :=
  computeLoop env.incAngle env.rgDist env.demErr (pbaseLoop env)
    env.numDate env.len env.wid env.sinFn env.piVal

theorem foldl_setSlice_data (f : Nat → Nat → Nat → ℚ) :
    ∀ (L : List Nat) (a : Arr3) (j y x : Nat),
      (L.foldl (fun b i => setSlice b i (fun v w => f i v w)) a).data j y x
        = if j ∈ L then f j y x else a.data j y x := by
  intro L
  induction L with
  | nil => intro a j y x; simp
  | cons i L ih =>
    intro a j y x
    rw [List.foldl_cons, ih]
    by_cases hjL : j ∈ L
    · simp [hjL]
    · by_cases hji : j = i
      · subst hji
        simp [hjL, setSlice]
      · simp [hjL, hji, setSlice]

theorem foldl_setSlice_dims (f : Nat → Nat → Nat → ℚ) :
    ∀ (L : List Nat) (a : Arr3),
      (L.foldl (fun b i => setSlice b i (fun v w => f i v w)) a).d0 = a.d0 ∧
      (L.foldl (fun b i => setSlice b i (fun v w => f i v w)) a).d1 = a.d1 ∧
      (L.foldl (fun b i => setSlice b i (fun v w => f i v w)) a).d2 = a.d2 ∧
      (L.foldl (fun b i => setSlice b i (fun v w => f i v w)) a).dtype = a.dtype := by
  intro L
  induction L with
  | nil => intro a; exact ⟨rfl, rfl, rfl, rfl⟩
  | cons i L ih =>
    intro a
    rw [List.foldl_cons]
    exact ih (setSlice a i (fun v w => f i v w))

theorem computeLoop_data (inc rg de : Arr2) (pb : Nat → ℚ)
    (numDate len wid : Nat) (sinFn : ℚ → ℚ) (piVal : ℚ)
    (i y x : Nat) (hi : i < numDate) :
    (computeLoop inc rg de pb numDate len wid sinFn piVal).data i y x
      = de.data y x * pb i / (rg.data y x * sinFn (inc.data y x * piVal / 180)) := by
  have h := foldl_setSlice_data
    (fun i v w => epochSlice inc rg de sinFn piVal pb i v w)
    (List.range numDate) (npZeros3 numDate len wid DType.float32) i y x
  simpa [computeLoop, epochSlice, List.mem_range, hi] using h

theorem computeLoop_dims (inc rg de : Arr2) (pb : Nat → ℚ)
    (numDate len wid : Nat) (sinFn : ℚ → ℚ) (piVal : ℚ) :
    (computeLoop inc rg de pb numDate len wid sinFn piVal).d0 = numDate ∧
    (computeLoop inc rg de pb numDate len wid sinFn piVal).d1 = len ∧
    (computeLoop inc rg de pb numDate len wid sinFn piVal).d2 = wid ∧
    (computeLoop inc rg de pb numDate len wid sinFn piVal).dtype = DType.float32 :=
  foldl_setSlice_dims
    (fun i v w => epochSlice inc rg de sinFn piVal pb i v w)
    (List.range numDate) (npZeros3 numDate len wid DType.float32)

/-! ## Script layer: cells 0 to 2 as an effect-trace semantics

Cell-0 opens the reference time series and normalizes `pbase`; its
result is the `Env` above.  Cell-1 is the guarded read-compute-write
block; its library calls may fail, which we model with `Except`.
Cell-2 shells out to `view.py`.  The trace records the observable
effects of cells 1 and 2. -/

/-- The file names appearing in the notebook (the leading directories do
not matter for the claims). -/
def outFileName : String := "sim_topoResid.h5"

/-- The geometry file `INPUTS/geometryRadar.h5`. -/
def geomFileName : String := "geometryRadar.h5"

/-- The DEM-error file `demErr.h5`. -/
def demErrFileName : String := "demErr.h5"

/-- An observable effect of the script. -/
inductive Event where
  | readCall (file : String) (dataset : Option String)
  | writeCall (file : String)
  | shellCall (prog : String) (args : List String)
deriving DecidableEq

/-- A run's surroundings: the data behind the library calls (`env`), the
content of `sim_topoResid.h5` on disk before the run (`none` when the
file does not exist), and, for each library call of cell-1, an optional
simulated failure of that call. -/
structure World where
  env : Env
  outData0 : Option Arr3
  incAngleErr : Option String
  rgDistErr : Option String
  demErrErr : Option String
  writeErr : Option String

/-- `readfile.read(geom_file, datasetName='incidenceAngle')[0]`. -/
def readIncAngle (W : World) : Except String Arr2 :=
  match W.incAngleErr with
  | some e => Except.error e
  | none => Except.ok W.env.incAngle

/-- `readfile.read(geom_file, datasetName='slantRangeDistance')[0]`. -/
def readRgDist (W : World) : Except String Arr2 :=
  match W.rgDistErr with
  | some e => Except.error e
  | none => Except.ok W.env.rgDist

/-- `readfile.read(dem_err_file)[0]`. -/
def readDemErr (W : World) : Except String Arr2 :=
  match W.demErrErr with
  | some e => Except.error e
  | none => Except.ok W.env.demErr

/-- `writefile.write(ts_data, out_file=out_file, ref_file=ts_file)`. -/
def writeOutCall (W : World) : Except String Unit :=
  match W.writeErr with
  | some e => Except.error e
  | none => Except.ok ()

/-- The mutable state the script threads through its cells: the `pbase`
variable, the content of the output file on disk, and the effect trace. -/
structure RunState where
  pbase : Nat → ℚ
  outData : Option Arr3
  trace : List Event

/-- Cell-0: open the time series and set `pbase -= pbase[0]`. -/
def cell0 (W : World) : RunState :=
  { pbase := pbaseNorm W.env, outData := W.outData0, trace := [] }

/-- Cell-1: `if not os.path.isfile(out_file): read geometry; pbase *= 10.;`
`read dem_err; fill ts_data; writefile.write(...)`.  An uncaught failure
of any library call aborts the whole script with that error. -/
def cell1 (W : World) (st : RunState) : Except String RunState :=
  if st.outData.isSome then
    Except.ok st
  else
    match readIncAngle W with
    | Except.error e => Except.error e
    | Except.ok inc =>
      match readRgDist W with
      | Except.error e => Except.error e
      | Except.ok rg =>
        let pb := fun i => st.pbase i * 10
        match readDemErr W with
        | Except.error e => Except.error e
        | Except.ok de =>
          let td := computeLoop inc rg de pb
            W.env.numDate W.env.len W.env.wid W.env.sinFn W.env.piVal
          match writeOutCall W with
          | Except.error e => Except.error e
          | Except.ok _ =>
            Except.ok
              { pbase := pb
              , outData := some td
              , trace := st.trace ++
                  [ Event.readCall geomFileName (some "incidenceAngle")
                  , Event.readCall geomFileName (some "slantRangeDistance")
                  , Event.readCall demErrFileName none
                  , Event.writeCall outFileName ] }

/-- Cell-2: `!view.py $out_file -n 4`. -/
def cell2 (st : RunState) : RunState :=
  { st with trace := st.trace ++ [Event.shellCall "view.py" [outFileName, "-n", "4"]] }

/-- One run of the notebook, starting from the state cell-0 produces. -/
def runScript (W : World) : Except String RunState :=
  match cell1 W (cell0 W) with
  | Except.error e => Except.error e
  | Except.ok st => Except.ok (cell2 st)

/-- The first failure among the library calls cell-1 makes, in the order
the notebook makes them. -/
def firstErr (W : World) : Option String :=
  match W.incAngleErr with
  | some e => some e
  | none =>
    match W.rgDistErr with
    | some e => some e
    | none =>
      match W.demErrErr with
      | some e => some e
      | none => W.writeErr

/-! ## Float special values, for the division-by-zero claim

`FVal` is float arithmetic with exact finite values: rounding is
idealized away but the IEEE special results of multiplying and dividing
with infinities, NaN and a zero divisor are kept.  (The sign of IEEE
negative zero is not tracked; it only flips which infinity a division
by zero yields, never whether the result is finite.) -/

/-- A float value: an exact finite rational, an infinity, or NaN. -/
inductive FVal where
  | fin (q : ℚ)
  | inf
  | ninf
  | nan
deriving DecidableEq

/-- Float multiplication with IEEE special values. -/
def fmul : FVal → FVal → FVal
  | FVal.nan, _ => FVal.nan
  | _, FVal.nan => FVal.nan
  | FVal.fin a, FVal.fin b => FVal.fin (a * b)
  | FVal.inf, FVal.fin b =>
      if b > 0 then FVal.inf else if b < 0 then FVal.ninf else FVal.nan
  | FVal.fin a, FVal.inf =>
      if a > 0 then FVal.inf else if a < 0 then FVal.ninf else FVal.nan
  | FVal.ninf, FVal.fin b =>
      if b > 0 then FVal.ninf else if b < 0 then FVal.inf else FVal.nan
  | FVal.fin a, FVal.ninf =>
      if a > 0 then FVal.ninf else if a < 0 then FVal.inf else FVal.nan
  | FVal.inf, FVal.inf => FVal.inf
  | FVal.inf, FVal.ninf => FVal.ninf
  | FVal.ninf, FVal.inf => FVal.ninf
  | FVal.ninf, FVal.ninf => FVal.inf

/-- Float division with IEEE special values; numpy raises no exception
here, it only emits a RuntimeWarning, so the operation is total. -/
def fdiv : FVal → FVal → FVal
  | FVal.nan, _ => FVal.nan
  | _, FVal.nan => FVal.nan
  | FVal.fin a, FVal.fin b =>
      if b ≠ 0 then FVal.fin (a / b)
      else if a = 0 then FVal.nan
      else if a > 0 then FVal.inf
      else FVal.ninf
  | FVal.fin _, FVal.inf => FVal.fin 0
  | FVal.fin _, FVal.ninf => FVal.fin 0
  | FVal.inf, FVal.fin b => if b ≥ 0 then FVal.inf else FVal.ninf
  | FVal.ninf, FVal.fin b => if b ≥ 0 then FVal.ninf else FVal.inf
  | FVal.inf, FVal.inf => FVal.nan
  | FVal.inf, FVal.ninf => FVal.nan
  | FVal.ninf, FVal.inf => FVal.nan
  | FVal.ninf, FVal.ninf => FVal.nan

/-- Whether a float value is finite (neither an infinity nor NaN). -/
def FVal.isFinite : FVal → Bool
  | FVal.fin _ => true
  | _ => false

/-- The per-pixel expression of the loop body over float values, with
`sinv` the already-evaluated `np.sin(inc_angle * np.pi / 180.)`:
`dem_err * pbase_i / (rg_dist * sinv)`. -/
def pixelF (de pb rg sinv : FVal) : FVal :=
  fdiv (fmul de pb) (fmul rg sinv)

/-! ## Helper characterizations of `ts_data` -/

theorem tsData_d0 (env : Env) : (tsData env).d0 = env.numDate :=
  (computeLoop_dims env.incAngle env.rgDist env.demErr (pbaseLoop env)
    env.numDate env.len env.wid env.sinFn env.piVal).1

theorem tsData_d1 (env : Env) : (tsData env).d1 = env.len :=
  (computeLoop_dims env.incAngle env.rgDist env.demErr (pbaseLoop env)
    env.numDate env.len env.wid env.sinFn env.piVal).2.1

theorem tsData_d2 (env : Env) : (tsData env).d2 = env.wid :=
  (computeLoop_dims env.incAngle env.rgDist env.demErr (pbaseLoop env)
    env.numDate env.len env.wid env.sinFn env.piVal).2.2.1

theorem tsData_dtype (env : Env) : (tsData env).dtype = DType.float32 :=
  (computeLoop_dims env.incAngle env.rgDist env.demErr (pbaseLoop env)
    env.numDate env.len env.wid env.sinFn env.piVal).2.2.2

theorem tsData_data (env : Env) (i y x : Nat) (hi : i < env.numDate) :
    (tsData env).data i y x =
      env.demErr.data y x * pbaseLoop env i /
        (env.rgDist.data y x * env.sinFn (env.incAngle.data y x * env.piVal / 180)) :=
  computeLoop_data env.incAngle env.rgDist env.demErr (pbaseLoop env)
    env.numDate env.len env.wid env.sinFn env.piVal i y x hi

/-! ## Concrete instances used to evaluate the model -/

/-- A concrete environment: two epochs, a single pixel, raw baselines
`0, 1`, unit geometry, incidence angle 90 degrees and a sine model that
is `1` at the angle used. -/
def cEnv : Env :=
  { pbaseRaw := fun i => if i = 0 then 0 else 1
  , numDate := 2
  , len := 1
  , wid := 1
  , incAngle := { d0 := 1, d1 := 1, data := fun _ _ => 90 }
  , rgDist := { d0 := 1, d1 := 1, data := fun _ _ => 1 }
  , demErr := { d0 := 1, d1 := 1, data := fun _ _ => 1 }
  , sinFn := fun _ => 1
  , piVal := 3 }

/-- A concrete pre-existing content for `sim_topoResid.h5`. -/
def cArr : Arr3 := npZeros3 1 1 1 DType.float32

/-- A world in which `sim_topoResid.h5` already exists. -/
def cWorldExists : World :=
  { env := cEnv, outData0 := some cArr
  , incAngleErr := none, rgDistErr := none, demErrErr := none, writeErr := none }

/-- A world in which `sim_topoResid.h5` does not exist and all library
calls succeed. -/
def cWorldMissing : World :=
  { env := cEnv, outData0 := none
  , incAngleErr := none, rgDistErr := none, demErrErr := none, writeErr := none }

/-- A world in which the first geometry read fails. -/
def cWorldFail : World :=
  { env := cEnv, outData0 := none
  , incAngleErr := some "FileNotFoundError", rgDistErr := none
  , demErrErr := none, writeErr := none }

/-! ## Claims about the per-pixel formula -/

/-- C1 counterexample: with raw baselines `0, 1`, unit geometry and sine
`1` at the 90-degree incidence angle, the pixel written for epoch 1 is
`10`, not the value `1` given by
`dem_err * pbase[i] / (rg_dist * sin(inc_angle in radians))` with
`pbase` only normalized to a zero first epoch: the claim misses the
`pbase *= 10.` rescaling that cell-1 performs before the loop. -/
theorem c1_formula_counterexample :
    1 < cEnv.numDate ∧
    (tsData cEnv).data 1 0 0 ≠
      cEnv.demErr.data 0 0 * pbaseNorm cEnv 1 /
        (cEnv.rgDist.data 0 0 * cEnv.sinFn (cEnv.incAngle.data 0 0 * cEnv.piVal / 180)) := by
  constructor
  · decide
  · rw [tsData_data cEnv 1 0 0 (by decide)]
    simp only [cEnv, pbaseLoop, pbaseNorm]
    norm_num

/-- C1 (amended): for every epoch `i < num_date` and every in-range pixel
`(y, x)`, the output pixel value equals
`dem_err[y,x] * (10 * pbase[i]) / (rg_dist[y,x] * sin(inc_angle[y,x] in radians))`,
where `pbase` is the perpendicular-baseline array normalized so the first
epoch's value is zero and then, as cell-1 does before the loop,
additionally scaled by 10. -/
theorem c1_formula_amended (env : Env) (i y x : Nat)
    (hi : i < env.numDate) (_hy : y < env.len) (_hx : x < env.wid) :
    (tsData env).data i y x =
      env.demErr.data y x * (10 * pbaseNorm env i) /
        (env.rgDist.data y x * env.sinFn (env.incAngle.data y x * env.piVal / 180)) := by
  rw [tsData_data env i y x hi]
  simp only [pbaseLoop]
  ring

/-- Witness for `c1_formula_amended` at the concrete environment. -/
theorem c1_formula_amended_witness :
    1 < cEnv.numDate ∧ 0 < cEnv.len ∧ 0 < cEnv.wid ∧
    (tsData cEnv).data 1 0 0 =
      cEnv.demErr.data 0 0 * (10 * pbaseNorm cEnv 1) /
        (cEnv.rgDist.data 0 0 * cEnv.sinFn (cEnv.incAngle.data 0 0 * cEnv.piVal / 180)) :=
  ⟨by decide, by decide, by decide,
    c1_formula_amended cEnv 1 0 0 (by decide) (by decide) (by decide)⟩

/-- C2: before the epoch loop the normalized `pbase` is rescaled in place
by 10, and the value written for epoch `i` at in-range pixel `(y, x)` is
`10 * (pbase_raw[i] - pbase_raw[0]) * dem_err[y,x] / (rg_dist[y,x] * sin(inc_angle[y,x] * pi / 180))`. -/
theorem c2_scaled_pbase_formula (env : Env) (i y x : Nat)
    (hi : i < env.numDate) (_hy : y < env.len) (_hx : x < env.wid) :
    pbaseLoop env i = 10 * (env.pbaseRaw i - env.pbaseRaw 0) ∧
    (tsData env).data i y x =
      10 * (env.pbaseRaw i - env.pbaseRaw 0) * env.demErr.data y x /
        (env.rgDist.data y x * env.sinFn (env.incAngle.data y x * env.piVal / 180)) := by
  constructor
  · simp only [pbaseLoop, pbaseNorm]
    ring
  · rw [tsData_data env i y x hi]
    simp only [pbaseLoop, pbaseNorm]
    ring

/-- Witness for `c2_scaled_pbase_formula` at the concrete environment. -/
theorem c2_scaled_pbase_formula_witness :
    1 < cEnv.numDate ∧ 0 < cEnv.len ∧ 0 < cEnv.wid ∧
    (pbaseLoop cEnv 1 = 10 * (cEnv.pbaseRaw 1 - cEnv.pbaseRaw 0) ∧
     (tsData cEnv).data 1 0 0 =
       10 * (cEnv.pbaseRaw 1 - cEnv.pbaseRaw 0) * cEnv.demErr.data 0 0 /
         (cEnv.rgDist.data 0 0 * cEnv.sinFn (cEnv.incAngle.data 0 0 * cEnv.piVal / 180))) :=
  ⟨by decide, by decide, by decide,
    c2_scaled_pbase_formula cEnv 1 0 0 (by decide) (by decide) (by decide)⟩

/-! ## Loop versus broadcast -/

/-- The single vectorized broadcast expression the spec describes:
the 2D `dem_err` broadcast against the 1D `pbase` array, divided
elementwise by `rg_dist * sin(inc_angle * pi / 180)`, as a
`(num_date, length, width)` float32 array.  This definition follows the
spec's words and is compared against the loop. -/
def tsDataBroadcast (env : Env) : Arr3 :=
  { d0 := env.numDate, d1 := env.len, d2 := env.wid, dtype := DType.float32
  , data := fun i y x =>
      env.demErr.data y x * pbaseLoop env i /
        (env.rgDist.data y x * env.sinFn (env.incAngle.data y x * env.piVal / 180)) }

/-- Equality of two 3D arrays as numpy arrays: same shape, same dtype,
and the same entry at every in-range index. -/
def Arr3.eqv (a b : Arr3) : Prop :=
  a.d0 = b.d0 ∧ a.d1 = b.d1 ∧ a.d2 = b.d2 ∧ a.dtype = b.dtype ∧
  ∀ i y x, i < a.d0 → y < a.d1 → x < a.d2 → a.data i y x = b.data i y x

/-- C3: for inputs of compatible shapes, the array the per-epoch loop
fills slice by slice is the same array as the one-line vectorized
broadcast expression. -/
theorem c3_loop_eq_broadcast (env : Env)
    (_h1 : env.incAngle.d0 = env.len) (_h2 : env.incAngle.d1 = env.wid)
    (_h3 : env.rgDist.d0 = env.len) (_h4 : env.rgDist.d1 = env.wid)
    (_h5 : env.demErr.d0 = env.len) (_h6 : env.demErr.d1 = env.wid) :
    Arr3.eqv (tsData env) (tsDataBroadcast env) := by
  refine ⟨tsData_d0 env, tsData_d1 env, tsData_d2 env, tsData_dtype env, ?_⟩
  intro i y x hi _hy _hx
  rw [tsData_d0 env] at hi
  exact tsData_data env i y x hi

/-- Witness for `c3_loop_eq_broadcast` at the concrete environment. -/
theorem c3_loop_eq_broadcast_witness :
    cEnv.incAngle.d0 = cEnv.len ∧ cEnv.incAngle.d1 = cEnv.wid ∧
    cEnv.rgDist.d0 = cEnv.len ∧ cEnv.rgDist.d1 = cEnv.wid ∧
    cEnv.demErr.d0 = cEnv.len ∧ cEnv.demErr.d1 = cEnv.wid ∧
    Arr3.eqv (tsData cEnv) (tsDataBroadcast cEnv) :=
  ⟨rfl, rfl, rfl, rfl, rfl, rfl,
    c3_loop_eq_broadcast cEnv rfl rfl rfl rfl rfl rfl⟩

/-- C4: after `pbase -= pbase[0]` the first element of `pbase` is zero,
and the first-epoch slice of the output is zero at every in-range pixel
whose denominator `rg_dist * sin(inc_angle * pi / 180)` is nonzero (in
the exact-arithmetic model every rational value is finite, so the
claim's finiteness proviso is automatic). -/
theorem c4_first_epoch_zero (env : Env) (y x : Nat)
    (hn : 0 < env.numDate) (_hy : y < env.len) (_hx : x < env.wid)
    (_hden : env.rgDist.data y x * env.sinFn (env.incAngle.data y x * env.piVal / 180) ≠ 0) :
    pbaseNorm env 0 = 0 ∧ (tsData env).data 0 y x = 0 := by
  constructor
  · simp [pbaseNorm]
  · rw [tsData_data env 0 y x hn]
    simp [pbaseLoop, pbaseNorm]

/-- Witness for `c4_first_epoch_zero` at the concrete environment. -/
theorem c4_first_epoch_zero_witness :
    0 < cEnv.numDate ∧ 0 < cEnv.len ∧ 0 < cEnv.wid ∧
    cEnv.rgDist.data 0 0 * cEnv.sinFn (cEnv.incAngle.data 0 0 * cEnv.piVal / 180) ≠ 0 ∧
    (pbaseNorm cEnv 0 = 0 ∧ (tsData cEnv).data 0 0 0 = 0) :=
  ⟨by decide, by decide, by decide, by norm_num [cEnv],
    c4_first_epoch_zero cEnv 0 0 (by decide) (by decide) (by decide) (by norm_num [cEnv])⟩

/-- C5: under shape compatibility of the geometry rasters with the
reference time-series dimensions, the result is a 3D float32 array of
shape `(num_date, length, width)` — `num_date` from the reference time
series, `(length, width)` the 2D shape of the geometry rasters — and
every in-range element is the elementwise broadcast of the 1D baseline
array against the 2D geometry arrays. -/
theorem c5_shape_dtype_formula (env : Env)
    (h1 : env.incAngle.d0 = env.len) (h2 : env.incAngle.d1 = env.wid)
    (_h3 : env.rgDist.d0 = env.len) (_h4 : env.rgDist.d1 = env.wid)
    (_h5 : env.demErr.d0 = env.len) (_h6 : env.demErr.d1 = env.wid) :
    (tsData env).d0 = env.numDate ∧
    (tsData env).d1 = env.incAngle.d0 ∧
    (tsData env).d2 = env.incAngle.d1 ∧
    (tsData env).dtype = DType.float32 ∧
    (∀ i y x, i < env.numDate → y < env.len → x < env.wid →
      (tsData env).data i y x =
        env.demErr.data y x * pbaseLoop env i /
          (env.rgDist.data y x * env.sinFn (env.incAngle.data y x * env.piVal / 180))) := by
  refine ⟨tsData_d0 env, ?_, ?_, tsData_dtype env, ?_⟩
  · rw [tsData_d1 env, h1]
  · rw [tsData_d2 env, h2]
  · intro i y x hi _hy _hx
    exact tsData_data env i y x hi

/-- Witness for `c5_shape_dtype_formula` at the concrete environment. -/
theorem c5_shape_dtype_formula_witness :
    cEnv.incAngle.d0 = cEnv.len ∧ cEnv.incAngle.d1 = cEnv.wid ∧
    cEnv.rgDist.d0 = cEnv.len ∧ cEnv.rgDist.d1 = cEnv.wid ∧
    cEnv.demErr.d0 = cEnv.len ∧ cEnv.demErr.d1 = cEnv.wid ∧
    ((tsData cEnv).d0 = cEnv.numDate ∧
     (tsData cEnv).d1 = cEnv.incAngle.d0 ∧
     (tsData cEnv).d2 = cEnv.incAngle.d1 ∧
     (tsData cEnv).dtype = DType.float32 ∧
     (∀ i y x, i < cEnv.numDate → y < cEnv.len → x < cEnv.wid →
       (tsData cEnv).data i y x =
         cEnv.demErr.data y x * pbaseLoop cEnv i /
           (cEnv.rgDist.data y x * cEnv.sinFn (cEnv.incAngle.data y x * cEnv.piVal / 180)))) :=
  ⟨rfl, rfl, rfl, rfl, rfl, rfl,
    c5_shape_dtype_formula cEnv rfl rfl rfl rfl rfl rfl⟩

/-- C9: the residual-phase computation is deterministic — two runs whose
inputs (`inc_angle`, `rg_dist`, `dem_err`, raw baselines, dimensions)
agree, with the same library constants `np.sin` and `np.pi`, produce
identical output arrays. -/
theorem c9_deterministic (e1 e2 : Env)
    (hpb : e1.pbaseRaw = e2.pbaseRaw) (hnd : e1.numDate = e2.numDate)
    (hlen : e1.len = e2.len) (hwid : e1.wid = e2.wid)
    (hinc : e1.incAngle = e2.incAngle) (hrg : e1.rgDist = e2.rgDist)
    (hde : e1.demErr = e2.demErr)
    (hsin : e1.sinFn = e2.sinFn) (hpi : e1.piVal = e2.piVal) :
    tsData e1 = tsData e2 := by
  have h : e1 = e2 := by
    cases e1
    cases e2
    simp_all
  rw [h]

/-- Witness for `c9_deterministic` at the concrete environment. -/
theorem c9_deterministic_witness : tsData cEnv = tsData cEnv :=
  c9_deterministic cEnv cEnv rfl rfl rfl rfl rfl rfl rfl rfl rfl

/-! ## Script-layer characterizations -/

/-- The `view.py` invocation of cell-2. -/
def viewEvent : Event := Event.shellCall "view.py" [outFileName, "-n", "4"]

/-- When the output file already exists, the run only shells out. -/
theorem runScript_skip (W : World) (a : Arr3) (h : W.outData0 = some a) :
    runScript W = Except.ok
      { pbase := pbaseNorm W.env, outData := some a, trace := [viewEvent] } := by
  simp [runScript, cell0, cell1, cell2, viewEvent, h]

/-- When the output file does not exist and every library call succeeds,
the run reads the three rasters, rescales `pbase`, computes the array,
writes it, and shells out. -/
theorem runScript_compute (W : World) (h0 : W.outData0 = none)
    (hi : W.incAngleErr = none) (hr : W.rgDistErr = none)
    (hd : W.demErrErr = none) (hw : W.writeErr = none) :
    runScript W = Except.ok
      { pbase := fun i => pbaseNorm W.env i * 10
      , outData := some (computeLoop W.env.incAngle W.env.rgDist W.env.demErr
          (fun i => pbaseNorm W.env i * 10)
          W.env.numDate W.env.len W.env.wid W.env.sinFn W.env.piVal)
      , trace :=
          [ Event.readCall geomFileName (some "incidenceAngle")
          , Event.readCall geomFileName (some "slantRangeDistance")
          , Event.readCall demErrFileName none
          , Event.writeCall outFileName
          , viewEvent ] } := by
  simp [runScript, cell0, cell1, cell2, viewEvent,
    readIncAngle, readRgDist, readDemErr, writeOutCall, h0, hi, hr, hd, hw]

/-- When the output file does not exist and one of cell-1's library
calls fails, the run aborts with the first such failure. -/
theorem runScript_err (W : World) (e : String)
    (h0 : W.outData0 = none) (he : firstErr W = some e) :
    runScript W = Except.error e := by
  rcases hi : W.incAngleErr with _ | e1 <;>
    rcases hr : W.rgDistErr with _ | e2 <;>
    rcases hd : W.demErrErr with _ | e3 <;>
    rcases hw : W.writeErr with _ | e4 <;>
    simp_all [runScript, cell0, cell1, firstErr,
      readIncAngle, readRgDist, readDemErr, writeOutCall]

/-- If no library call fails, all four failure slots are empty. -/
theorem firstErr_none (W : World) (h : firstErr W = none) :
    W.incAngleErr = none ∧ W.rgDistErr = none ∧
    W.demErrErr = none ∧ W.writeErr = none := by
  rcases hi : W.incAngleErr with _ | e1 <;>
    rcases hr : W.rgDistErr with _ | e2 <;>
    rcases hd : W.demErrErr with _ | e3 <;>
    rcases hw : W.writeErr with _ | e4 <;>
    simp_all [firstErr]

/-- Test for a file-write effect. -/
def isWriteEvent : Event → Bool
  | Event.writeCall _ => true
  | _ => false

/-- Test for a shell-out effect. -/
def isShellEvent : Event → Bool
  | Event.shellCall _ _ => true
  | _ => false

/-- C6: if `sim_topoResid.h5` already exists when cell-1 runs, the whole
read-compute-write block is skipped — no geometry or DEM-error dataset
is read, `pbase` keeps its merely normalized value, nothing is computed
or written, the file keeps its previous content — and the only effect
of the run is the `view.py` invocation. -/
theorem c6_skip_when_exists (W : World) (a : Arr3) (h : W.outData0 = some a) :
    runScript W = Except.ok
      { pbase := pbaseNorm W.env, outData := some a, trace := [viewEvent] } :=
  runScript_skip W a h

/-- Witness for `c6_skip_when_exists` at the concrete world. -/
theorem c6_skip_when_exists_witness :
    cWorldExists.outData0 = some cArr ∧
    runScript cWorldExists = Except.ok
      { pbase := pbaseNorm cEnv, outData := some cArr, trace := [viewEvent] } :=
  ⟨rfl, c6_skip_when_exists cWorldExists cArr rfl⟩

/-- C7: the division in the per-pixel formula is unguarded but total over
float values: whenever the denominator `rg_dist * sin(inc_angle * pi / 180)`
evaluates to (float) zero, the expression still yields a value — numpy
emits only a RuntimeWarning, never an exception, which the totality of
`pixelF` models — and that value is non-finite (an infinity or NaN). -/
theorem c7_zero_denominator_nonfinite (de pb rg sinv : FVal)
    (h : fmul rg sinv = FVal.fin 0) :
    FVal.isFinite (pixelF de pb rg sinv) = false := by
  rw [pixelF, h]
  rcases hn : fmul de pb with q | _ | _ | _ <;>
    simp [fdiv, FVal.isFinite] <;> split_ifs <;> simp [FVal.isFinite]

/-- Witness for `c7_zero_denominator_nonfinite`: a unit DEM error and
baseline over a pixel with zero slant-range distance. -/
theorem c7_zero_denominator_nonfinite_witness :
    fmul (FVal.fin 0) (FVal.fin 1) = FVal.fin 0 ∧
    FVal.isFinite (pixelF (FVal.fin 1) (FVal.fin 10) (FVal.fin 0) (FVal.fin 1)) = false :=
  ⟨by simp [fmul], c7_zero_denominator_nonfinite
    (FVal.fin 1) (FVal.fin 10) (FVal.fin 0) (FVal.fin 1) (by simp [fmul])⟩

/-- C8: the script defines no error handling — when the output file does
not exist (so the block runs), the first failure among cell-1's library
calls, read or write, aborts the run with exactly that error, with no
recovery or retry. -/
theorem c8_errors_propagate (W : World) (e : String)
    (h0 : W.outData0 = none) (he : firstErr W = some e) :
    runScript W = Except.error e :=
  runScript_err W e h0 he

/-- Witness for `c8_errors_propagate` at a world whose first geometry
read fails. -/
theorem c8_errors_propagate_witness :
    cWorldFail.outData0 = none ∧
    firstErr cWorldFail = some "FileNotFoundError" ∧
    runScript cWorldFail = Except.error "FileNotFoundError" :=
  ⟨rfl, rfl, c8_errors_propagate cWorldFail "FileNotFoundError" rfl rfl⟩

/-- C10 counterexample: in a world where `sim_topoResid.h5` already
exists, the run completes but performs no file write at all, so it is
not the case that each run of the script writes exactly one output
file. -/
theorem c10_writes_counterexample :
    (runScript cWorldExists).toOption.map
        (fun st => st.trace.countP isWriteEvent) ≠ some 1 ∧
    (runScript cWorldExists).toOption.map
        (fun st => st.trace.countP isWriteEvent) = some 0 := by
  rw [runScript_skip cWorldExists cArr rfl]
  constructor
  · simp [Except.toOption, viewEvent, isWriteEvent]
  · simp [Except.toOption, viewEvent, isWriteEvent]

/-- C10 (amended): a run that completes writes the output file
`sim_topoResid.h5` exactly once if it did not already exist and not at
all if it did; every write it performs targets that file; and in either
case the run ends by shelling out exactly once to `view.py` with the
output file path as positional argument and the epoch-selecting flag
`-n 4`. -/
theorem c10_write_at_most_once_then_view (W : World) (st : RunState)
    (h : runScript W = Except.ok st) :
    st.trace.countP isWriteEvent = (if W.outData0.isSome then 0 else 1) ∧
    st.trace.count (Event.writeCall outFileName) = (if W.outData0.isSome then 0 else 1) ∧
    st.trace.countP isShellEvent = 1 ∧
    st.trace.count viewEvent = 1 ∧
    st.trace.getLast? = some viewEvent := by
  rcases h0 : W.outData0 with _ | a
  · rcases hfe : firstErr W with _ | e
    · obtain ⟨hi, hr, hd, hw⟩ := firstErr_none W hfe
      rw [runScript_compute W h0 hi hr hd hw] at h
      injection h with h2
      subst h2
      refine ⟨?_, ?_, ?_, ?_, ?_⟩ <;> simp [h0] <;> decide
    · rw [runScript_err W e h0 hfe] at h
      exact absurd h (by simp)
  · rw [runScript_skip W a h0] at h
    injection h with h2
    subst h2
    refine ⟨?_, ?_, ?_, ?_, ?_⟩ <;> simp [h0] <;> decide

/-- The run state produced by a successful compute run from the concrete
missing-file world. -/
def cRunMissing : RunState :=
  { pbase := fun i => pbaseNorm cEnv i * 10
  , outData := some (computeLoop cEnv.incAngle cEnv.rgDist cEnv.demErr
      (fun i => pbaseNorm cEnv i * 10)
      cEnv.numDate cEnv.len cEnv.wid cEnv.sinFn cEnv.piVal)
  , trace :=
      [ Event.readCall geomFileName (some "incidenceAngle")
      , Event.readCall geomFileName (some "slantRangeDistance")
      , Event.readCall demErrFileName none
      , Event.writeCall outFileName
      , viewEvent ] }

/-- Witness for `c10_write_at_most_once_then_view` at the concrete
missing-file world. -/
theorem c10_write_at_most_once_then_view_witness :
    runScript cWorldMissing = Except.ok cRunMissing ∧
    (cRunMissing.trace.countP isWriteEvent
        = (if cWorldMissing.outData0.isSome then 0 else 1) ∧
     cRunMissing.trace.count (Event.writeCall outFileName)
        = (if cWorldMissing.outData0.isSome then 0 else 1) ∧
     cRunMissing.trace.countP isShellEvent = 1 ∧
     cRunMissing.trace.count viewEvent = 1 ∧
     cRunMissing.trace.getLast? = some viewEvent) :=
  ⟨runScript_compute cWorldMissing rfl rfl rfl rfl rfl,
   c10_write_at_most_once_then_view cWorldMissing cRunMissing
     (runScript_compute cWorldMissing rfl rfl rfl rfl rfl)⟩
